import Mathlib

/-!
Shallow embedding of the LandsatToolkit scene-assembly and spectral-index
pipeline (`satellite_library`): filename classification, scene grouping,
band-stack construction, index computation and reprojection metadata,
translated from `scene_operations.py`, `index_calculator.py`,
`scene_processor.py` and `utils/helper_functions.py`.

Conventions:
- filenames are `List Char`; Python `str.lower()` is `lowerStr`;
  Python substring `in` is `hasSub`;
- pixels are rationals; a float value that may be NaN/Inf is `Option ℚ`
  (`none` = non-finite), division by zero yields `none`;
- a Python function that raises is `Except ErrKind _`; the repository's
  pervasive try/except-print-return-None wrapper is `Except.toOption`.
-/

deriving instance DecidableEq for Except

namespace LandsatToolkit

/-- Satellite types recognised by `detect_satellite_type`. -/
inductive SatType where
  | landsat7
  | landsat8
  | landsat9
deriving DecidableEq, Repr

/-- Abstract error kinds for the exceptions the Python code raises
(`ValueError`, `FileNotFoundError`, numpy `IndexError`, ...). -/
inductive ErrKind where
  | notFound
  | noValidBands
  | insufficientBands
  | unsupportedIndexType
  | unsupportedSatelliteType
  | invalidParameter
  | indexError
  | attributeError
deriving DecidableEq, Repr

/-- Python `str.lower()` on a filename. -/
def lowerStr (s : List Char) : List Char := s.map Char.toLower

/-- Test that `tok` is a leading segment of `s` (helper for substring search). -/
def startsTok : List Char → List Char → Bool
  | [], _ => true
  | _ :: _, [] => false
  | a :: as, b :: bs => a == b && startsTok as bs

/-- Python substring test `tok in s`. -/
def hasSub : List Char → List Char → Bool
  | tok, [] => tok.isEmpty
  | tok, s@(_ :: rest) => startsTok tok s || hasSub tok rest

def tokLE07 : List Char := "le07".toList
def tokLC08 : List Char := "lc08".toList
def tokLC09 : List Char := "lc09".toList

/-- Embeds `SceneOperations.detect_satellite_type` and `SceneProcessor.detect_satellite_type`:
lowercase the filename, then test the markers in priority order
le07, lc08, lc09; unrecognised files yield `none` (Python `None`). -/
def detect_satellite_type (file_name : List Char) : Option SatType :=
  let fn := lowerStr file_name
  if hasSub tokLE07 fn then some .landsat7
  else if hasSub tokLC08 fn then some .landsat8
  else if hasSub tokLC09 fn then some .landsat9
  else none

def chUnd : Char := '_'
def chDot : Char := '.'

/-- Python `"_".join(file_name.split("_")[:7])`: the scene id of a filename. -/
def sceneIdOf (file_name : List Char) : List Char :=
  List.intercalate [chUnd] ((file_name.splitOn chUnd).take 7)

end LandsatToolkit

namespace LandsatToolkit

/-! ## Numeric layer: pixels, bands, grids

A 2-D band is a list of rows of rational pixels; a 3-D band matrix is a
list of bands (band axis first, as produced by `np.stack(band_arrays, axis=0)`).
A float that may be NaN/Inf is `Option ℚ` with `none` marking non-finite. -/

/-- A 2-D raster band (rows of pixels). -/
abbrev Band : Type := List (List ℚ)

/-- A 3-D band matrix, band axis first. -/
abbrev Matrix3 : Type := List Band

/-- A 2-D grid of possibly non-finite floats (`none` = NaN or Inf),
as produced by numpy arithmetic before any finiteness masking. -/
abbrev FBand : Type := List (List (Option ℚ))

/-- Floating-point division: division by zero produces a non-finite
value (`none`), any other quotient is finite. -/
def fdiv (a b : ℚ) : Option ℚ := if b = 0 then none else some (a / b)

/-- Models `np.where(np.isfinite(x), x, 0)` at one pixel: keep finite values,
replace NaN/Inf with 0. -/
def finite0 (x : Option ℚ) : ℚ := x.getD 0

/-- Element-wise combination of two equally-shaped 2-D grids. -/
def pixelwise2 {α : Type} (f : ℚ → ℚ → α) (x y : Band) : List (List α) :=
  List.zipWith (fun r s => List.zipWith f r s) x y

/-- Embed an all-finite band into the possibly-non-finite grid type. -/
def toFBand (b : Band) : FBand := b.map (fun r => r.map some)

/-- Python `matrix.shape[0]`: length of the band axis. -/
def nBands (m : Matrix3) : ℕ := m.length

/-- Python `matrix[i]` where the caller has already ensured `i` is in range
(Python would raise IndexError otherwise; this total variant defaults to
an empty band and is only used under an explicit bound check). -/
def bandAt (m : Matrix3) (i : ℕ) : Band := m.getD i []

/-! ## SceneOperations index methods

`SceneOperations.calculate_ndvi / ndwi / ndbi / savi` validate the band
axis, extract bands at the FIXED positions red=3, green=2, nir=4, swir=5
(the Landsat-8 layout, hardcoded for every satellite type), divide with
numpy semantics, and mask non-finite results to 0. The raised
`ValueError`s become `Except.error` values. -/

/-- One NDVI pixel: `(nir - red) / (nir + red)` then finiteness mask. -/
def ndviPixel (nir red : ℚ) : ℚ := finite0 (fdiv (nir - red) (nir + red))

/-- One NDWI pixel: `(green - nir) / (green + nir)` then finiteness mask. -/
def ndwiPixel (green nir : ℚ) : ℚ := finite0 (fdiv (green - nir) (green + nir))

/-- One NDBI pixel: `(swir - nir) / (swir + nir)` then finiteness mask. -/
def ndbiPixel (swir nir : ℚ) : ℚ := finite0 (fdiv (swir - nir) (swir + nir))

/-- One SAVI pixel: `((nir - red) / (nir + red + L)) * (1 + L)`; the
multiplication keeps non-finite values non-finite, then the finiteness
mask replaces them with 0. -/
def saviPixel (L nir red : ℚ) : ℚ :=
  finite0 ((fdiv (nir - red) (nir + red + L)).map (fun q => q * (1 + L)))

/-- Embeds `SceneOperations.calculate_ndvi`: requires at least 5 bands
(else raises `ValueError`, re-raised); `nir = matrix[4]`, `red = matrix[3]`. -/
def calculate_ndvi (matrix : Matrix3) : Except ErrKind Band :=
  if nBands matrix < 5 then .error .insufficientBands
  else .ok (pixelwise2 ndviPixel (bandAt matrix 4) (bandAt matrix 3))

/-- Embeds `SceneOperations.calculate_ndwi`: requires at least 5 bands;
`green = matrix[2]`, `nir = matrix[4]`. -/
def calculate_ndwi (matrix : Matrix3) : Except ErrKind Band :=
  if nBands matrix < 5 then .error .insufficientBands
  else .ok (pixelwise2 ndwiPixel (bandAt matrix 2) (bandAt matrix 4))

/-- Embeds `SceneOperations.calculate_ndbi`: requires at least 6 bands;
`swir = matrix[5]`, `nir = matrix[4]`. -/
def calculate_ndbi (matrix : Matrix3) : Except ErrKind Band :=
  if nBands matrix < 6 then .error .insufficientBands
  else .ok (pixelwise2 ndbiPixel (bandAt matrix 5) (bandAt matrix 4))

/-- Embeds `SceneOperations.calculate_savi`: requires at least 5 bands, then
`0 <= L <= 1` (default `L = 0.5`); `nir = matrix[4]`, `red = matrix[3]`. -/
def calculate_savi (matrix : Matrix3) (L : ℚ) : Except ErrKind Band :=
  if nBands matrix < 5 then .error .insufficientBands
  else if ¬ (0 ≤ L ∧ L ≤ 1) then .error .invalidParameter
  else .ok (pixelwise2 (saviPixel L) (bandAt matrix 4) (bandAt matrix 3))

def strNDVI : List Char := "NDVI".toList
def strNDWI : List Char := "NDWI".toList
def strNDBI : List Char := "NDBI".toList
def strSAVI : List Char := "SAVI".toList

/-- The dispatch inside `SceneOperations.calculate_and_save_index`: exact
string match on the index type; the `satellite_type` argument is accepted
but never consulted for band selection. Unknown names raise `ValueError`. -/
def sceneops_select_index (matrix : Matrix3) (index_type : List Char) :
    Except ErrKind Band :=
  if index_type = strNDVI then calculate_ndvi matrix
  else if index_type = strNDWI then calculate_ndwi matrix
  else if index_type = strNDBI then calculate_ndbi matrix
  else if index_type = strSAVI then calculate_savi matrix (1 / 2)
  else .error .unsupportedIndexType

/-- Embeds `SceneOperations.calculate_and_save_index` as observed by its caller:
every exception from the selected calculation is caught and printed, and
the method falls through returning Python `None`; a successful
computation yields the index grid (the file write is outside the model).
The `satellite_type` parameter does not influence the computation. -/
def sceneops_calculate_and_save_index (matrix : Matrix3) (index_type : List Char)
    (satellite_type : Option SatType) : Option Band :=
  let _ := satellite_type
  (sceneops_select_index matrix index_type).toOption

/-! ## IndexCalculator

`IndexCalculator.calculate_and_save_index` looks the band roles up in a
per-satellite-type table, indexes the matrix with them (numpy raises
`IndexError` when a role index is out of range — there is no explicit
band-count check), and computes the index. Its SAVI branch performs NO
finiteness masking, so its output grid can carry non-finite pixels;
hence the `FBand` result type. -/

/-- Band roles of one satellite type (zero-based stack indices). -/
structure BandRoles where
  red : ℕ
  green : ℕ
  nir : ℕ
  swir : ℕ
deriving DecidableEq, Repr

def strLandsat7 : List Char := "landsat7".toList
def strLandsat8 : List Char := "landsat8".toList
def strLandsat9 : List Char := "landsat9".toList

/-- The `band_mapping` dict literal in `IndexCalculator.calculate_and_save_index`
(duplicated as `BAND_MAPPING` in `utils/constants.py`). -/
def band_mapping (satellite_type : List Char) : Option BandRoles :=
  if satellite_type = strLandsat7 then some ⟨2, 1, 3, 4⟩
  else if satellite_type = strLandsat8 then some ⟨3, 2, 4, 5⟩
  else if satellite_type = strLandsat9 then some ⟨3, 2, 4, 5⟩
  else none

/-- numpy `matrix[i]`: `IndexError` when `i` is outside the band axis. -/
def npBand (m : Matrix3) (i : ℕ) : Except ErrKind Band :=
  if i < nBands m then .ok (bandAt m i) else .error .indexError

/-- Embeds `calculate_normalized_difference` (`utils/helper_functions.py`) and
`IndexCalculator._calculate_normalized_difference`:
`np.divide(band1 - band2, d, out=np.zeros_like(d), where=d != 0)` —
pixels with zero denominator keep the prefilled 0, no NaN/Inf is ever
produced. -/
def calculate_normalized_difference (band1 band2 : Band) : Band :=
  pixelwise2
    (fun a b => if a + b = 0 then (0 : ℚ) else (a - b) / (a + b)) band1 band2

/-- Python `str.upper()`. -/
def upperStr (s : List Char) : List Char := s.map Char.toUpper

/-- The computation performed by `IndexCalculator.calculate_and_save_index`
before the GeoTIFF write: role lookup (`ValueError` on unknown satellite),
dispatch on `index_type.upper()` (`ValueError` on unknown index), band
extraction by role index (`IndexError` out of range), and the index
formula. Only the SAVI branch can leave non-finite pixels in the grid. -/
def indexcalc_compute (matrix : Matrix3) (index_type satellite_type : List Char) :
    Except ErrKind FBand :=
  match band_mapping satellite_type with
  | none => .error .unsupportedSatelliteType
  | some bands =>
    if upperStr index_type = strNDVI then do
      let nir ← npBand matrix bands.nir
      let red ← npBand matrix bands.red
      .ok (toFBand (calculate_normalized_difference nir red))
    else if upperStr index_type = strNDWI then do
      let green ← npBand matrix bands.green
      let nir ← npBand matrix bands.nir
      .ok (toFBand (calculate_normalized_difference green nir))
    else if upperStr index_type = strSAVI then do
      let nir ← npBand matrix bands.nir
      let red ← npBand matrix bands.red
      .ok (pixelwise2
        (fun n r => (fdiv (n - r) (n + r + 1 / 2)).map (fun q => q * (1 + 1 / 2)))
        nir red)
    else if upperStr index_type = strNDBI then do
      let swir ← npBand matrix bands.swir
      let nir ← npBand matrix bands.nir
      .ok (toFBand (calculate_normalized_difference swir nir))
    else .error .unsupportedIndexType

/-- A grid is free of NaN/Inf when every pixel is finite. -/
def allFinite (g : FBand) : Bool := g.all (fun r => r.all Option.isSome)

/-! ## Scene Catalog: `group_files_by_scene` and `create_band_matrices`

A folder is modelled by its listing (`none` when the folder does not
exist, mirroring `os.path.exists` returning false) plus a partial map
from filenames to raster contents (`none` = unreadable file). Grouping
only looks at names; Python dict insertion order is kept by using an
association list, `setdefault(...).append` appends to the key's list. -/

/-- Scene grouping as an insertion-ordered association list. -/
abbrev Grouping : Type := List (List Char × List (List Char))

/-- Python `scenes.setdefault(scene_id, []).append(path)`: append `v` to the
existing entry for `k`, or add a new entry at the end. -/
def insertGroup : Grouping → List Char → List Char → Grouping
  | [], k, v => [(k, [v])]
  | (k', vs) :: rest, k, v =>
    if k' = k then (k', vs ++ [v]) :: rest
    else (k', vs) :: insertGroup rest k v

/-- The loop body of `SceneOperations.group_files_by_scene`: skip hidden
files (leading dot) and files with unrecognised satellite type, group
the rest under their scene id. -/
def groupScenes : List (List Char) → Grouping → Grouping
  | [], acc => acc
  | fn :: rest, acc =>
    if fn.head? = some chDot then groupScenes rest acc
    else
      match detect_satellite_type fn with
      | none => groupScenes rest acc
      | some _ => groupScenes rest (insertGroup acc (sceneIdOf fn) fn)

/-- Embeds `SceneOperations.group_files_by_scene` before its except handlers:
raises `FileNotFoundError` when the input folder no longer exists,
otherwise groups the listing. The function only lists names — it never
opens a file and never writes. -/
def group_files_by_scene_inner (folder : Option (List (List Char))) :
    Except ErrKind Grouping :=
  match folder with
  | none => .error .notFound
  | some file_list => .ok (groupScenes file_list [])

/-- Embeds `SceneOperations.group_files_by_scene` as observed by its caller:
the raised `FileNotFoundError` is caught by the method's own handler and
printed, and the method returns Python `None`. -/
def group_files_by_scene (folder : Option (List (List Char))) : Option Grouping :=
  (group_files_by_scene_inner folder).toOption

/-- Python `grouping.get(scene_id, [])`. -/
def getScene (g : Grouping) (sid : List Char) : List (List Char) :=
  match g.find? (fun p => p.1 = sid) with
  | some p => p.2
  | none => []

/-- An input folder: whether it exists, its listing, and each file's
raster contents (`none` for unreadable files). -/
structure Folder where
  present : Bool
  listing : List (List Char)
  contents : List Char → Option Band

/-- What `os.listdir` sees: `none` when the folder is gone. -/
def folderView (fs : Folder) : Option (List (List Char)) :=
  if fs.present then some fs.listing else none

def tokSRB : List Char := "_sr_b".toList

/-- The band-selection loop of `create_band_matrices`: keep files whose
lowercased path contains `"_sr_b"`, read each one, silently skipping
unreadable files (their exception is printed and swallowed), in listing
order. -/
def readBands (fs : Folder) : List (List Char) → List Band
  | [] => []
  | fp :: rest =>
    if hasSub tokSRB (lowerStr fp) then
      match fs.contents fp with
      | some b => b :: readBands fs rest
      | none => readBands fs rest
    else readBands fs rest

/-- Embeds `SceneOperations.create_band_matrices` before its outer except
handlers: `group_files_by_scene()` returning `None` makes `.get` raise
`AttributeError`; an empty scene raises `FileNotFoundError`; zero
selected band files raise `ValueError`; otherwise the bands are stacked
along a new leading axis. -/
def create_band_matrices_inner (fs : Folder) (scene_id : List Char) :
    Except ErrKind Matrix3 :=
  match group_files_by_scene (folderView fs) with
  | none => .error .attributeError
  | some grouping =>
    let scene_files := getScene grouping scene_id
    if scene_files = [] then .error .notFound
    else
      let band_arrays := readBands fs scene_files
      if band_arrays = [] then .error .noValidBands
      else .ok band_arrays

/-- Embeds `SceneOperations.create_band_matrices` as observed by its caller:
every raised error is caught by the method's own except blocks and
printed, and the method returns Python `None`; only a successful stack
is returned. -/
def create_band_matrices (fs : Folder) (scene_id : List Char) : Option Matrix3 :=
  (create_band_matrices_inner fs scene_id).toOption

/-! ## Reprojector metadata handling

`SceneOperations.reproject_scene` (and `SceneProcessor.reproject_scene`)
does `meta = src.meta.copy()` and then overwrites exactly the four keys
`crs`, `transform`, `width`, `height` with the values computed by
`calculate_default_transform`, writing `src.count` bands into the
destination. The transform computation itself is external (rasterio);
it is a parameter here. -/

/-- Rasterio metadata dict: the spatial fields plus the non-spatial
ones (`count`, `dtype`, `nodata`) that tag along in `src.meta`. -/
structure RasterMeta where
  crs : List Char
  transform : ℚ × ℚ × ℚ × ℚ × ℚ × ℚ
  width : ℕ
  height : ℕ
  count : ℕ
  dtype : List Char
  nodata : Option ℚ
deriving DecidableEq

/-- Python `meta.update(...)` of crs, transform, width, height
on a copy of the source metadata. -/
def reprojected_meta (src : RasterMeta) (target_crs : List Char)
    (transform : ℚ × ℚ × ℚ × ℚ × ℚ × ℚ) (width height : ℕ) : RasterMeta :=
  { src with crs := target_crs, transform := transform, width := width, height := height }

/-- The band loop `for i in range(1, src.count + 1): reproject(...)`:
one destination band per source band, produced by the resampling
provider `resample`. -/
def reprojected_bands (src_count : ℕ) (resample : ℕ → Band) : List Band :=
  (List.range src_count).map (fun i => resample (i + 1))

/-! ## Specification-side formulas

Named after the spec's wording, to be compared with the code-side
definitions above. -/

/-- The normalized-difference formula as the spec states it:
`(a - b)/(a + b)` where the denominator is nonzero, else 0. -/
def ndSpec (a b : ℚ) : ℚ := if a + b = 0 then 0 else (a - b) / (a + b)

/-- The SAVI formula as the spec states it: `((nir - red)/(nir + red + L)) * (1 + L)`,
with non-finite pixels (denominator zero) replaced by 0. -/
def saviSpec (L n r : ℚ) : ℚ :=
  if n + r + L = 0 then 0 else ((n - r) / (n + r + L)) * (1 + L)

/-! ## Shared helper lemmas and sample inputs -/

theorem ndviPixel_eq (n r : ℚ) : ndviPixel n r = ndSpec n r := by
  simp only [ndviPixel, finite0, fdiv, ndSpec]
  split <;> simp

theorem ndwiPixel_eq (g n : ℚ) : ndwiPixel g n = ndSpec g n := by
  simp only [ndwiPixel, finite0, fdiv, ndSpec]
  split <;> simp

theorem ndbiPixel_eq (s n : ℚ) : ndbiPixel s n = ndSpec s n := by
  simp only [ndbiPixel, finite0, fdiv, ndSpec]
  split <;> simp

theorem saviPixel_eq (L n r : ℚ) : saviPixel L n r = saviSpec L n r := by
  simp only [saviPixel, finite0, fdiv, saviSpec]
  split <;> simp

theorem zipWith_replicate_same {α β γ : Type} (f : α → β → γ) (n : ℕ) (a : α) (b : β) :
    List.zipWith f (List.replicate n a) (List.replicate n b) = List.replicate n (f a b) := by
  induction n with
  | zero => rfl
  | succ k ih => simp [List.replicate_succ, ih]

/-- A 5-band sample stack of 1x1 bands with pairwise distinct values. -/
def sampleM5 : Matrix3 := [[[0]], [[1]], [[2]], [[3]], [[4]]]

/-- A 4-band sample stack of 1x1 bands. -/
def sampleM4 : Matrix3 := [[[0]], [[1]], [[2]], [[3]]]

/-- A 2-band sample stack of 1x1 bands. -/
def sampleM2 : Matrix3 := [[[10]], [[30]]]

theorem ndviPixel_fun : ndviPixel = ndSpec :=
  funext fun n => funext fun r => ndviPixel_eq n r

theorem ndwiPixel_fun : ndwiPixel = ndSpec :=
  funext fun g => funext fun n => ndwiPixel_eq g n

theorem ndbiPixel_fun : ndbiPixel = ndSpec :=
  funext fun s => funext fun n => ndbiPixel_eq s n

theorem saviPixel_fun (L : ℚ) : saviPixel L = saviSpec L :=
  funext fun n => funext fun r => saviPixel_eq L n r

/-! ## Claim theorems -/

/-- C3: for every normalized-difference computation (the NDVI/NDWI/NDBI
pixel maps of `SceneOperations` and the shared helper
`calculate_normalized_difference`) and every pixel pair `(a, b)`: the
output pixel is 0 when `a + b = 0` and `(a - b)/(a + b)` otherwise, and
the returned grids carry no NaN/Inf: the successful results are exactly
the grids of the total, finite-valued `ndSpec` formula. -/
theorem C3_normalized_difference :
    (∀ a b : ℚ, ndviPixel a b = ndSpec a b) ∧
    (∀ a b : ℚ, ndwiPixel a b = ndSpec a b) ∧
    (∀ a b : ℚ, ndbiPixel a b = ndSpec a b) ∧
    (∀ band1 band2 : Band,
      calculate_normalized_difference band1 band2 = pixelwise2 ndSpec band1 band2) ∧
    (∀ band1 band2 : Band,
      allFinite (toFBand (calculate_normalized_difference band1 band2)) = true) ∧
    (∀ m : Matrix3, 5 ≤ nBands m →
      calculate_ndvi m = .ok (pixelwise2 ndSpec (bandAt m 4) (bandAt m 3)) ∧
      calculate_ndwi m = .ok (pixelwise2 ndSpec (bandAt m 2) (bandAt m 4))) ∧
    (∀ m : Matrix3, 6 ≤ nBands m →
      calculate_ndbi m = .ok (pixelwise2 ndSpec (bandAt m 5) (bandAt m 4))) := by
  refine ⟨ndviPixel_eq, ndwiPixel_eq, ndbiPixel_eq, fun band1 band2 => rfl,
    ?_, ?_, ?_⟩
  · intro band1 band2
    simp [allFinite, toFBand, List.all_map, Function.comp]
  · intro m hm
    have h5 : ¬ (nBands m < 5) := by omega
    constructor
    · simp [calculate_ndvi, h5, ndviPixel_fun]
    · simp [calculate_ndwi, h5, ndwiPixel_fun]
  · intro m hm
    have h6 : ¬ (nBands m < 6) := by omega
    simp [calculate_ndbi, h6, ndbiPixel_fun]

theorem C3_normalized_difference_witness :
    5 ≤ nBands sampleM5 ∧
    calculate_ndvi sampleM5 = .ok (pixelwise2 ndSpec (bandAt sampleM5 4) (bandAt sampleM5 3)) :=
  ⟨by decide, (C3_normalized_difference.2.2.2.2.2.1 sampleM5 (by decide)).1⟩

/-- C9: reprojection keeps the source's dtype, band count and nodata
value; exactly the crs, transform, width and height metadata fields are
overwritten, the output CRS is the requested target CRS, and the band
loop writes one destination band per source band. -/
theorem C9_reprojection_metadata (src : RasterMeta) (target_crs : List Char)
    (t : ℚ × ℚ × ℚ × ℚ × ℚ × ℚ) (w h : ℕ) (resample : ℕ → Band) :
    (reprojected_meta src target_crs t w h).dtype = src.dtype ∧
    (reprojected_meta src target_crs t w h).count = src.count ∧
    (reprojected_meta src target_crs t w h).nodata = src.nodata ∧
    (reprojected_meta src target_crs t w h).crs = target_crs ∧
    (reprojected_meta src target_crs t w h).transform = t ∧
    (reprojected_meta src target_crs t w h).width = w ∧
    (reprojected_meta src target_crs t w h).height = h ∧
    (reprojected_bands src.count resample).length = src.count := by
  refine ⟨rfl, rfl, rfl, rfl, rfl, rfl, rfl, ?_⟩
  simp [reprojected_bands]

/-- C10: on any stack with at least 5 bands, `calculate_savi` with soil
factor `L = 0` returns exactly the `calculate_ndvi` grid (both mask
non-finite division results to 0 and read nir/red from indices 4/3). -/
theorem C10_savi_L0_is_ndvi (m : Matrix3) (h : 5 ≤ nBands m) :
    calculate_savi m 0 = calculate_ndvi m := by
  have h5 : ¬ (nBands m < 5) := by omega
  have hp : saviPixel 0 = ndviPixel := by
    rw [saviPixel_fun, ndviPixel_fun]
    funext n r
    simp [saviSpec, ndSpec]
  simp [calculate_savi, calculate_ndvi, h5, hp]

theorem C10_savi_L0_is_ndvi_witness :
    5 ≤ nBands sampleM5 ∧ calculate_savi sampleM5 0 = calculate_ndvi sampleM5 :=
  ⟨by decide, C10_savi_L0_is_ndvi sampleM5 (by decide)⟩

/-- Every grouped grouping only contains classified filenames. -/
def goodGrouping (g : Grouping) : Prop :=
  ∀ p ∈ g, ∀ fn ∈ p.2, detect_satellite_type fn ≠ none

theorem mem_of_mem_insertGroup {acc : Grouping} {k v fn : List Char}
    {p : List Char × List (List Char)}
    (hp : p ∈ insertGroup acc k v) (hfn : fn ∈ p.2) :
    (∃ q ∈ acc, fn ∈ q.2) ∨ fn = v := by
  induction acc with
  | nil =>
    simp only [insertGroup, List.mem_singleton] at hp
    subst hp
    simp only [List.mem_singleton] at hfn
    exact Or.inr hfn
  | cons hd tl ih =>
    obtain ⟨k', vs⟩ := hd
    simp only [insertGroup] at hp
    by_cases hk : k' = k
    · rw [if_pos hk] at hp
      rcases List.mem_cons.mp hp with h1 | h1
      · subst h1
        rcases List.mem_append.mp hfn with h2 | h2
        · exact Or.inl ⟨(k', vs), List.mem_cons_self _ _, h2⟩
        · simp only [List.mem_singleton] at h2
          exact Or.inr h2
      · exact Or.inl ⟨p, List.mem_cons_of_mem _ h1, hfn⟩
    · rw [if_neg hk] at hp
      rcases List.mem_cons.mp hp with h1 | h1
      · subst h1
        exact Or.inl ⟨(k', vs), List.mem_cons_self _ _, hfn⟩
      · rcases ih h1 with ⟨q, hq, hfq⟩ | h2
        · exact Or.inl ⟨q, List.mem_cons_of_mem _ hq, hfq⟩
        · exact Or.inr h2

theorem groupScenes_good (listing : List (List Char)) (acc : Grouping)
    (hacc : goodGrouping acc) : goodGrouping (groupScenes listing acc) := by
  induction listing generalizing acc with
  | nil => exact hacc
  | cons f rest ih =>
    show goodGrouping (groupScenes (f :: rest) acc)
    rw [groupScenes]
    by_cases hdot : f.head? = some chDot
    · rw [if_pos hdot]
      exact ih acc hacc
    · rw [if_neg hdot]
      rcases hdet : detect_satellite_type f with _ | st
      · exact ih acc hacc
      · apply ih
        intro p hp fn hfn
        rcases mem_of_mem_insertGroup hp hfn with ⟨q, hq, hfq⟩ | rfl
        · exact hacc q hq fn hfq
        · simp [hdet]

/-- C7: classification is case-insensitive substring matching of le07,
lc08, lc09 in that priority order with first match winning; filenames
containing none of the tokens classify as UNKNOWN (`none`) and never
appear in any scene grouping. -/
theorem C7_classification :
    (∀ fn : List Char, hasSub tokLE07 (lowerStr fn) = true →
      detect_satellite_type fn = some SatType.landsat7) ∧
    (∀ fn : List Char, hasSub tokLE07 (lowerStr fn) = false →
      hasSub tokLC08 (lowerStr fn) = true →
      detect_satellite_type fn = some SatType.landsat8) ∧
    (∀ fn : List Char, hasSub tokLE07 (lowerStr fn) = false →
      hasSub tokLC08 (lowerStr fn) = false →
      hasSub tokLC09 (lowerStr fn) = true →
      detect_satellite_type fn = some SatType.landsat9) ∧
    (∀ fn : List Char, hasSub tokLE07 (lowerStr fn) = false →
      hasSub tokLC08 (lowerStr fn) = false →
      hasSub tokLC09 (lowerStr fn) = false →
      detect_satellite_type fn = none) ∧
    (∀ (listing : List (List Char)) (p : List Char × List (List Char)) (fn : List Char),
      p ∈ groupScenes listing [] → fn ∈ p.2 →
      detect_satellite_type fn ≠ none) := by
  refine ⟨?_, ?_, ?_, ?_, ?_⟩
  · intro fn h1
    simp [detect_satellite_type, h1]
  · intro fn h1 h2
    simp [detect_satellite_type, h1, h2]
  · intro fn h1 h2 h3
    simp [detect_satellite_type, h1, h2, h3]
  · intro fn h1 h2 h3
    simp [detect_satellite_type, h1, h2, h3]
  · intro listing p fn hp hfn
    refine groupScenes_good listing [] ?_ p hp fn hfn
    intro q hq
    exact absurd hq (List.not_mem_nil q)

/-- A sample Landsat-7 band filename. -/
def fnLE07sample : List Char := "LE07_L2SP_192029_20240716_20240722_02_T1_SR_B3.TIF".toList

theorem C7_classification_witness :
    hasSub tokLE07 (lowerStr fnLE07sample) = true ∧
    detect_satellite_type fnLE07sample = some SatType.landsat7 :=
  ⟨by decide, C7_classification.1 fnLE07sample (by decide)⟩

/-- C1 counterexample: on a 5-band stack with pairwise distinct 1x1
bands, `SceneOperations`' NDVI for satellite type LANDSAT7 reads
nir/red from the fixed indices 4/3 and returns `1/7`, not the `1/5`
that the LANDSAT7 role map (red=2, nir=3) would give, so the claim's
role table does not govern every index computation. -/
theorem C1_counterexample :
    sceneops_calculate_and_save_index sampleM5 strNDVI (some SatType.landsat7) =
      some [[(1 : ℚ) / 7]] ∧
    pixelwise2 ndSpec (bandAt sampleM5 3) (bandAt sampleM5 2) = [[(1 : ℚ) / 5]] ∧
    ((1 : ℚ) / 7) ≠ ((1 : ℚ) / 5) := by
  refine ⟨?_, ?_, by norm_num⟩
  · have hstep : sceneops_calculate_and_save_index sampleM5 strNDVI
        (some SatType.landsat7) = some [[ndviPixel 4 3]] := rfl
    rw [hstep, ndviPixel_eq]
    norm_num [ndSpec]
  · have hstep : pixelwise2 ndSpec (bandAt sampleM5 3) (bandAt sampleM5 2) =
        [[ndSpec 3 2]] := rfl
    rw [hstep]
    norm_num [ndSpec]

/-- C1 (amended): `IndexCalculator.calculate_and_save_index` takes its
band roles from the fixed per-satellite-type map (LANDSAT7: red=2,
green=1, nir=3, swir=4; LANDSAT8/9: red=3, green=2, nir=4, swir=5) and
indexes the stack with them, but `SceneOperations`' index methods use
the fixed indices red=3, green=2, nir=4, swir=5 for every satellite
type, ignoring the `satellite_type` argument. -/
theorem C1_band_roles (m : Matrix3) (h : 6 ≤ nBands m) :
    band_mapping strLandsat7 = some ⟨2, 1, 3, 4⟩ ∧
    band_mapping strLandsat8 = some ⟨3, 2, 4, 5⟩ ∧
    band_mapping strLandsat9 = some ⟨3, 2, 4, 5⟩ ∧
    indexcalc_compute m strNDVI strLandsat7 =
      .ok (toFBand (calculate_normalized_difference (bandAt m 3) (bandAt m 2))) ∧
    indexcalc_compute m strNDVI strLandsat8 =
      .ok (toFBand (calculate_normalized_difference (bandAt m 4) (bandAt m 3))) ∧
    indexcalc_compute m strNDBI strLandsat8 =
      .ok (toFBand (calculate_normalized_difference (bandAt m 5) (bandAt m 4))) ∧
    (∀ satellite_type : Option SatType,
      sceneops_calculate_and_save_index m strNDVI satellite_type =
        some (pixelwise2 ndviPixel (bandAt m 4) (bandAt m 3))) := by
  have h87 : ¬ (strLandsat8 = strLandsat7) := by decide
  have h97 : ¬ (strLandsat9 = strLandsat7) := by decide
  have h98 : ¬ (strLandsat9 = strLandsat8) := by decide
  have hU1 : upperStr strNDVI = strNDVI := by decide
  have hB1 : ¬ (upperStr strNDBI = strNDVI) := by decide
  have hB2 : ¬ (upperStr strNDBI = strNDWI) := by decide
  have hB3 : ¬ (upperStr strNDBI = strSAVI) := by decide
  have hB4 : upperStr strNDBI = strNDBI := by decide
  have hBV : ¬ (strNDBI = strNDVI) := by decide
  have hBW : ¬ (strNDBI = strNDWI) := by decide
  have hBS : ¬ (strNDBI = strSAVI) := by decide
  have h2 : 2 < nBands m := by omega
  have h3 : 3 < nBands m := by omega
  have h4 : 4 < nBands m := by omega
  have h5 : 5 < nBands m := by omega
  have h5' : ¬ (nBands m < 5) := by omega
  refine ⟨by simp [band_mapping], by simp [band_mapping, h87],
    by simp [band_mapping, h97, h98], ?_, ?_, ?_, ?_⟩
  · simp [indexcalc_compute, band_mapping, hU1, npBand, h2, h3, Bind.bind, Except.bind]
  · simp [indexcalc_compute, band_mapping, h87, hU1, npBand, h3, h4, Bind.bind, Except.bind]
  · simp [indexcalc_compute, band_mapping, h87, hB1, hB2, hB3, hB4, hBV, hBW, hBS,
      npBand, h4, h5, Bind.bind, Except.bind]
  · intro satellite_type
    simp [sceneops_calculate_and_save_index, sceneops_select_index, calculate_ndvi,
      h5', Except.toOption]

theorem C1_band_roles_witness :
    6 ≤ nBands ([[[0]], [[1]], [[2]], [[3]], [[4]], [[5]]] : Matrix3) ∧
    band_mapping strLandsat7 = some ⟨2, 1, 3, 4⟩ :=
  ⟨by decide, (C1_band_roles [[[0]], [[1]], [[2]], [[3]], [[4]], [[5]]] (by decide)).1⟩

/-- C2 counterexample: `IndexCalculator` performs no band-count check:
for LANDSAT7 the NDVI roles are nir=3, red=2, so a 4-band stack (fewer
than the 5 bands the claim requires for NDVI) succeeds and returns a
grid instead of failing with InsufficientBands. -/
theorem C2_counterexample :
    nBands sampleM4 < 5 ∧
    indexcalc_compute sampleM4 strNDVI strLandsat7 = .ok [[some ((1 : ℚ) / 5)]] := by
  refine ⟨by decide, ?_⟩
  have hstep : indexcalc_compute sampleM4 strNDVI strLandsat7 =
      .ok [[some (ndSpec 3 2)]] := rfl
  rw [hstep]
  norm_num [ndSpec]

/-- C2 (amended): `SceneOperations`' index methods do fail on short
stacks — NDVI/NDWI/SAVI with fewer than 5 bands and NDBI with fewer
than 6 raise the insufficient-bands `ValueError` instead of returning a
grid — while `IndexCalculator` only fails via numpy's IndexError when a
role index (here nir=4 for LANDSAT8) is outside the band axis. -/
theorem C2_insufficient_bands (m : Matrix3) :
    (nBands m < 5 →
      calculate_ndvi m = .error .insufficientBands ∧
      calculate_ndwi m = .error .insufficientBands ∧
      (∀ L : ℚ, calculate_savi m L = .error .insufficientBands)) ∧
    (nBands m < 6 → calculate_ndbi m = .error .insufficientBands) ∧
    (nBands m < 5 → indexcalc_compute m strNDVI strLandsat8 = .error .indexError) := by
  have h87 : ¬ (strLandsat8 = strLandsat7) := by decide
  have hU1 : upperStr strNDVI = strNDVI := by decide
  refine ⟨?_, ?_, ?_⟩
  · intro h
    exact ⟨by simp [calculate_ndvi, h], by simp [calculate_ndwi, h],
      fun L => by simp [calculate_savi, h]⟩
  · intro h
    simp [calculate_ndbi, h]
  · intro h
    have h4 : ¬ (4 < nBands m) := by omega
    simp [indexcalc_compute, band_mapping, h87, hU1, npBand, h4, Bind.bind, Except.bind]

theorem C2_insufficient_bands_witness :
    nBands ([] : Matrix3) < 5 ∧ calculate_ndvi [] = .error .insufficientBands :=
  ⟨by decide, ((C2_insufficient_bands []).1 (by decide)).1⟩

/-- Value `-1/2`, used to build the degenerate SAVI denominator. -/
def qNegHalf : ℚ := -(1 / 2)

/-- A 5-band stack whose nir band (index 4) is `-1/2` and red band
(index 3) is `0`, so `NIR + RED + 0.5 = 0`. -/
def mC4 : Matrix3 := [[[0]], [[0]], [[0]], [[0]], [[qNegHalf]]]

/-- C4 counterexample: `IndexCalculator`'s SAVI branch performs no
finiteness masking: at a pixel with `NIR + RED = -0.5` it returns a
grid containing a non-finite value (`none`) instead of 0. -/
theorem C4_counterexample :
    indexcalc_compute mC4 strSAVI strLandsat8 = .ok [[none]] ∧
    allFinite [[none]] = false := by
  refine ⟨?_, by decide⟩
  have hstep : indexcalc_compute mC4 strSAVI strLandsat8 =
      .ok [[(fdiv (qNegHalf - 0) (qNegHalf + 0 + 1 / 2)).map
        (fun q => q * (1 + 1 / 2))]] := rfl
  rw [hstep]
  norm_num [fdiv, qNegHalf]

/-- C4 (amended): `SceneOperations.calculate_savi` (and the SAVI path
of `SceneOperations.calculate_and_save_index`) computes
`((NIR - RED)/(NIR + RED + 0.5)) * 1.5` and replaces every non-finite
pixel (`NIR + RED = -0.5`) with 0; `IndexCalculator`'s SAVI branch does
not mask (see the counterexample). -/
theorem C4_savi_masking (m : Matrix3) (h : 5 ≤ nBands m) :
    (∀ n r : ℚ, saviPixel (1 / 2) n r = saviSpec (1 / 2) n r) ∧
    calculate_savi m (1 / 2) =
      .ok (pixelwise2 (saviSpec (1 / 2)) (bandAt m 4) (bandAt m 3)) ∧
    (∀ satellite_type : Option SatType,
      sceneops_calculate_and_save_index m strSAVI satellite_type =
        some (pixelwise2 (saviSpec (1 / 2)) (bandAt m 4) (bandAt m 3))) := by
  have h5' : ¬ (nBands m < 5) := by omega
  have hSV : ¬ (strSAVI = strNDVI) := by decide
  have hSW : ¬ (strSAVI = strNDWI) := by decide
  have hSB : ¬ (strSAVI = strNDBI) := by decide
  refine ⟨saviPixel_eq (1 / 2), ?_, ?_⟩
  · norm_num [calculate_savi, h5', saviPixel_fun]
  · intro satellite_type
    norm_num [sceneops_calculate_and_save_index, sceneops_select_index, hSV, hSW, hSB,
      calculate_savi, h5', saviPixel_fun, Except.toOption]

theorem C4_savi_masking_witness :
    5 ≤ nBands sampleM5 ∧
    calculate_savi sampleM5 (1 / 2) =
      .ok (pixelwise2 (saviSpec (1 / 2)) (bandAt sampleM5 4) (bandAt sampleM5 3)) :=
  ⟨by decide, (C4_savi_masking sampleM5 (by decide)).2.1⟩

/-! ## The end-to-end LC08 scenario folder (spec section 8) -/

def fileB4 : List Char := "LC08_L2SP_192029_20240716_20240722_02_T1_SR_B4.TIF".toList

def fileB5 : List Char := "LC08_L2SP_192029_20240716_20240722_02_T1_SR_B5.TIF".toList

def sceneLC08 : List Char := "LC08_L2SP_192029_20240716_20240722_02_T1".toList

/-- The all-value-10 2x2 band. -/
def grid10 : Band := [[10, 10], [10, 10]]

/-- The all-value-30 2x2 band. -/
def grid30 : Band := [[30, 30], [30, 30]]

/-- The scenario input folder: exactly the two LC08 surface-reflectance
band files, readable, sharing one scene id. -/
def sceneFolder : Folder where
  present := true
  listing := [fileB4, fileB5]
  contents := fun fp =>
    if fp = fileB4 then some grid10
    else if fp = fileB5 then some grid30
    else none

/-- A scene id not present in `sceneFolder`. -/
def missingScene : List Char := "LC09_MISSING".toList

/-- C5 (code bug, evaluated at the failing inputs): the inner
computation of `create_band_matrices` raises its documented
`FileNotFoundError` for an absent scene id, but the method's own except
handler absorbs it and the caller only sees Python `None`; likewise the
insufficient-bands `ValueError` raised inside
`SceneOperations.calculate_and_save_index` is absorbed into `None`
instead of propagating. -/
theorem C5_errors_absorbed :
    create_band_matrices_inner sceneFolder missingScene = .error .notFound ∧
    create_band_matrices sceneFolder missingScene = none ∧
    sceneops_select_index sampleM2 strNDVI = .error .insufficientBands ∧
    sceneops_calculate_and_save_index sampleM2 strNDVI (some SatType.landsat8) = none := by
  exact ⟨by decide, by decide, by decide, by decide⟩

/-- C6 counterexample: the scenario's `buildStack` does return the
(2,H,W) stack of the two bands, but `compute(NDVI)` on a 2-band stack
fails with the insufficient-bands error — it never returns the claimed
constant-0.5 grid. -/
theorem C6_counterexample :
    create_band_matrices_inner sceneFolder sceneLC08 = .ok [grid10, grid30] ∧
    nBands [grid10, grid30] = 2 ∧
    calculate_ndvi [grid10, grid30] = .error .insufficientBands := by
  exact ⟨by decide, by decide, by decide⟩

/-- A constant-valued band of the given height and width. -/
def constBand (v : ℚ) (hgt wdt : ℕ) : Band :=
  List.replicate hgt (List.replicate wdt v)

theorem pixelwise2_constBand {α : Type} (f : ℚ → ℚ → α) (a b : ℚ) (hgt wdt : ℕ) :
    pixelwise2 f (constBand a hgt wdt) (constBand b hgt wdt) =
      List.replicate hgt (List.replicate wdt (f a b)) := by
  simp [pixelwise2, constBand, zipWith_replicate_same]

/-- C6 (amended): the two-file LC08 folder stacks into the (2,H,W)
matrix, on which NDVI fails with InsufficientBands; the constant
(30-10)/(30+10) = 0.5 grid is produced only when the value-10 band sits
at role index 3 (red) and the value-30 band at role index 4 (nir) of a
stack with at least 5 bands. -/
theorem C6_endtoend (b0 b1 b2 : Band) (rest : List Band) (hgt wdt : ℕ) :
    create_band_matrices_inner sceneFolder sceneLC08 = .ok [grid10, grid30] ∧
    calculate_ndvi [grid10, grid30] = .error .insufficientBands ∧
    calculate_ndvi (b0 :: b1 :: b2 :: constBand 10 hgt wdt :: constBand 30 hgt wdt :: rest) =
      .ok (constBand (1 / 2) hgt wdt) := by
  refine ⟨by decide, by decide, ?_⟩
  have hlen : ¬ (nBands (b0 :: b1 :: b2 :: constBand 10 hgt wdt ::
      constBand 30 hgt wdt :: rest) < 5) := by
    simp [nBands]
  have hband4 : bandAt (b0 :: b1 :: b2 :: constBand 10 hgt wdt ::
      constBand 30 hgt wdt :: rest) 4 = constBand 30 hgt wdt := rfl
  have hband3 : bandAt (b0 :: b1 :: b2 :: constBand 10 hgt wdt ::
      constBand 30 hgt wdt :: rest) 3 = constBand 10 hgt wdt := rfl
  have hpix : ndviPixel 30 10 = 1 / 2 := by
    rw [ndviPixel_eq]
    norm_num [ndSpec]
  rw [calculate_ndvi, if_neg hlen, hband4, hband3, pixelwise2_constBand, hpix]
  rfl

/-- C8 (code bug, evaluated at the failing input): when the input
folder does not exist, `group_files_by_scene` raises its documented
`FileNotFoundError` internally but catches and prints it, returning
Python `None` to the caller; when the folder exists the grouping always
succeeds from the name listing alone (it opens no file, so unreadable
files cannot fail it, and it performs no writes). -/
theorem C8_group_notfound :
    group_files_by_scene_inner none = .error .notFound ∧
    group_files_by_scene none = none ∧
    (∀ listing : List (List Char),
      group_files_by_scene (some listing) = some (groupScenes listing [])) :=
  ⟨rfl, rfl, fun _ => rfl⟩

end LandsatToolkit
